import Mathlib

/-!
Shallow embedding of the POC-BrowserDAO scoring pipeline
(`my_proof/proof_of_quality.py`, `my_proof/proof_of_quality_n_authenticity.py`,
`my_proof/proof_of_uniqueness.py`).

Numeric values are modelled as exact rationals; Python float literals such as
`0.5` or `44.44` appear as the corresponding rationals.  Optional / possibly
missing dictionary fields are modelled with `Option`.  String helpers that the
source uses (`str.startswith`, `str.lower`, substring containment) are
implemented over character lists.
-/

/-- Character-list test that `pat` is an initial segment of `s`
(Python `str.startswith`). -/
def listPrefixOf : List Char → List Char → Bool
  | [], _ => true
  | _ :: _, [] => false
  | p :: ps, c :: cs => p == c && listPrefixOf ps cs

/-- Substring containment over character lists (Python `needle in hay`). -/
def listContainsSub : List Char → List Char → Bool
  | [], needle => listPrefixOf needle []
  | c :: cs, needle => listPrefixOf needle (c :: cs) || listContainsSub cs needle

/-- Python `needle in hay` on strings. -/
def strContains (hay needle : String) : Bool :=
  listContainsSub hay.toList needle.toList

/-- Python `str.lower`, over the character list. -/
def strToLower (s : String) : String :=
  String.mk (s.toList.map Char.toLower)

/-- A browsing-history entry as consumed by `evaluate_quality` /
`evaluate_authenticity` (a Python dict whose keys `url`, `timeSpent`,
`listOfActions` may individually be absent). -/
structure BrowsingEntry where
  url : Option String
  timeSpent : Option ℚ
  listOfActions : Option (List String)

/-- `is_valid_url`: the url must start with `http://` or `https://`. -/
def is_valid_url (url : String) : Bool :=
  listPrefixOf "http://".toList url.toList || listPrefixOf "https://".toList url.toList

/-- Per-entry contribution to the three quality counters, mirroring the loop
body of `evaluate_quality`: `(valid_time_entries, completeness_issues,
action_engagement_score)` increments.  An entry missing a required field, or
with an invalid url, counts one completeness issue and is skipped for the
other two checks (the `continue` in the source). -/
def entryQualityCounts (e : BrowsingEntry) : ℕ × ℕ × ℕ :=
  match e.url, e.timeSpent, e.listOfActions with
  | some u, some t, some acts =>
      if is_valid_url u then
        ((if 2000 ≤ t ∧ t ≤ 7200000 then 1 else 0), 0,
         (if acts ≠ [] then 1 else 0))
      else (0, 1, 0)
  | _, _, _ => (0, 1, 0)

/-- `evaluate_quality` (identical in `proof_of_quality.py` and
`proof_of_quality_n_authenticity.py`): weighted ratio score capped at
`MAX_QUALITY_SCORE = 60`, then divided by 100. -/
def evaluate_quality (browsing_data : List BrowsingEntry) : ℚ :=
  let total : ℕ := browsing_data.length
  let valid_time_entries : ℕ := (browsing_data.map (fun e => (entryQualityCounts e).1)).sum
  let completeness_issues : ℕ := (browsing_data.map (fun e => (entryQualityCounts e).2.1)).sum
  let action_engagement_score : ℕ := (browsing_data.map (fun e => (entryQualityCounts e).2.2)).sum
  let quality_score : ℚ :=
    if 0 < total then
      ((valid_time_entries : ℚ) / total) * 40
        + (((total : ℚ) - (completeness_issues : ℚ)) / total) * 10
        + ((action_engagement_score : ℚ) / total) * 10
    else 0
  min quality_score 60 / 100

/-- `evaluate_authenticity` (identical in both quality modules): starts from
`MAX_AUTHENTICITY_SCORE = 40`, subtracts a ratio-scaled short-visit penalty
and a count-scaled long-visit penalty, clamps at 0, divides by 100.
Missing fields default via `entry.get('timeSpent', 0)` and
`entry.get('listOfActions', [])`. -/
def evaluate_authenticity (browsing_data : List BrowsingEntry) : ℚ :=
  let total : ℕ := browsing_data.length
  let short_visits : ℕ :=
    (browsing_data.filter (fun e => e.timeSpent.getD 0 < 2000)).length
  let long_visits_without_actions : ℕ :=
    (browsing_data.filter
      (fun e => 300000 < e.timeSpent.getD 0 ∧ e.listOfActions.getD [] = [])).length
  let afterShort : ℚ :=
    if 0 < total then 40 - ((short_visits : ℚ) / total) * 20 else 40
  let afterLong : ℚ := afterShort - (long_visits_without_actions : ℚ) * 10
  max afterLong 0 / 100

/-- `compute_overall_score`: sum of quality and authenticity, capped at 1. -/
def compute_overall_score (quality_score authenticity_score : ℚ) : ℚ :=
  min (quality_score + authenticity_score) 1

/-- `get_quality_label`: percentage thresholds 80 (high) and 20 (moderate). -/
def get_quality_label (overall_score : ℚ) : String :=
  if 80 ≤ overall_score * 100 then "High Quality"
  else if 20 ≤ overall_score * 100 then "Moderate Quality"
  else "Low Quality"

/-- Numeric tier of a label, for stating monotonicity of the labeler. -/
def labelRank (label : String) : ℕ :=
  if label = "High Quality" then 2
  else if label = "Moderate Quality" then 1
  else 0

/-- Claim C1 as stated is false: `evaluate_quality` of the empty visit
sequence is 0, but `evaluate_authenticity` of the empty sequence is
`max(40, 0)/100 = 0.4`, not 0. -/
theorem c1_counterexample :
    ¬ (evaluate_quality [] = 0 ∧ evaluate_authenticity [] = 0) := by
  intro h
  have h2 := h.2
  norm_num [evaluate_authenticity] at h2

/-- Claim C1, amended: for the empty browsing visit sequence,
`evaluate_quality` returns 0 and `evaluate_authenticity` returns 2/5 (the
full 40-point allotment divided by 100), since no penalty applies. -/
theorem c1_empty_scores :
    evaluate_quality [] = 0 ∧ evaluate_authenticity [] = 2/5 := by
  constructor
  · norm_num [evaluate_quality]
  · norm_num [evaluate_authenticity]

/-- Claim C7: `get_quality_label` is monotone non-decreasing in the overall
score (measured by tier rank), maps exact boundary 0.80 to "High Quality",
exact boundary 0.20 to "Moderate Quality", and everything strictly below
0.20 to "Low Quality". -/
theorem c7_label_monotone_boundaries :
    (∀ a b : ℚ, a < b →
      labelRank (get_quality_label a) ≤ labelRank (get_quality_label b)) ∧
    get_quality_label (80/100) = "High Quality" ∧
    get_quality_label (20/100) = "Moderate Quality" ∧
    ∀ x : ℚ, x < 20/100 → get_quality_label x = "Low Quality" := by
  refine ⟨?_, by norm_num [get_quality_label], by norm_num [get_quality_label], ?_⟩
  · intro a b hab
    have h : a * 100 < b * 100 := by linarith
    unfold get_quality_label
    split_ifs <;> simp [labelRank] <;> linarith
  · intro x hx
    have h : x * 100 < 20 := by linarith
    unfold get_quality_label
    rw [if_neg (by linarith), if_neg (by linarith)]

/-- Witness for C7 at concrete scores 0.1 and 0.9. -/
theorem c7_witness :
    labelRank (get_quality_label (1/10)) ≤ labelRank (get_quality_label (9/10)) ∧
    get_quality_label (1/10) = "Low Quality" :=
  ⟨c7_label_monotone_boundaries.1 (1/10) (9/10) (by norm_num),
   c7_label_monotone_boundaries.2.2.2 (1/10) (by norm_num)⟩

/-- A raw numeric field as read by `entry.get("distance", 0)` followed by
`float(...)` conversion: the field may be absent (default 0), present but
falsy (`0`, `""`: treated as 0), present and parsing to a rational, or
present but failing `float()` (the `ValueError` handler yields 0). -/
inductive RawNum where
  | absent
  | falsy
  | num (q : ℚ)
  | bad
deriving DecidableEq

/-- The effective distance in metres every source path assigns to a
`RawNum` (`float(distance) if distance else 0.0` with `ValueError → 0.0`,
and `float(... .get("distance", 0))` with `ValueError → 0.0` agree on all
four cases). -/
def RawNum.toDist : RawNum → ℚ
  | .absent => 0
  | .falsy => 0
  | .num q => q
  | .bad => 0

/-- One element of a segment's `activities` list; `probability`, when the
key is present, either parses as a float or raises (inner `none`). -/
structure Activity where
  probability : Option (Option ℚ)
deriving DecidableEq

/-- A waypoint of `activitySegment.waypointPath.waypoints`; each of `latE7`
and `lngE7` may be absent, or present and parsing to a rational (inner
`some`) or failing `float()` (inner `none`). -/
structure Waypoint where
  latE7 : Option (Option ℚ)
  lngE7 : Option (Option ℚ)
deriving DecidableEq

/-- The `activitySegment` sub-dictionary of a location segment.  Timestamps
are modelled as the result of `parse_time`: `none` for a missing, empty or
unparseable string, `some t` for a parsed instant `t` in seconds. -/
structure ActivitySegment where
  activityType : Option String
  distance : RawNum
  startTime : Option ℚ
  endTime : Option ℚ
  waypoints : List Waypoint
deriving DecidableEq

/-- The `placeVisit` sub-dictionary: `locationConfidence` of
`placeVisit.location`, absent when either the `location` dict or the key is
missing; inner `none` when `float()` fails. -/
structure PlaceVisit where
  locationConfidence : Option (Option ℚ)
deriving DecidableEq

/-- A semantic location segment as consumed by
`android_location_history_validator`.  Top-level `startTime` / `endTime`
are the `parse_time` results (seconds); `distance` is the top-level
`distance` field; `activities`, `activitySegment` and `placeVisit` are
optional sub-structures. -/
structure Segment where
  startTime : Option ℚ
  endTime : Option ℚ
  distance : RawNum
  activities : Option (List Activity)
  activitySegment : Option ActivitySegment
  placeVisit : Option PlaceVisit
deriving DecidableEq

/-- `android_location_history_validator.calc_speed`: 0 when either time is
missing or the elapsed time is not positive, else distance over elapsed
seconds. -/
def calc_speed (distance_meters : ℚ) (t1 t2 : Option ℚ) : ℚ :=
  match t1, t2 with
  | some a, some b => if 0 < b - a then distance_meters / (b - a) else 0
  | _, _ => 0

/-- Issue count of a single segment's own `endTime < startTime` comparison
in `check_time_order` (skipped unless both timestamps parse). -/
def selfIssue (e : Segment) : ℕ :=
  match e.startTime, e.endTime with
  | some s, some en => if en < s then 1 else 0
  | _, _ => 0

/-- Issue count of a consecutive-pair `next.startTime < current.endTime`
comparison in `check_time_order` (skipped unless both timestamps parse). -/
def pairIssue (e f : Segment) : ℕ :=
  match e.endTime, f.startTime with
  | some en, some ns => if ns < en then 1 else 0
  | _, _ => 0

/-- Total issues accumulated by the `check_time_order` loop. -/
def timeOrderIssues : List Segment → ℕ
  | [] => 0
  | [e] => selfIssue e
  | e :: f :: rest => selfIssue e + pairIssue e f + timeOrderIssues (f :: rest)

/-- `check_time_order`: `1 - issues/total_checks` with the fixed denominator
`total_checks = 2*len(data) - 1`, or 1.0 on empty input. -/
def check_time_order (data : List Segment) : ℚ :=
  if data = [] then 1
  else 1 - (timeOrderIssues data : ℚ) / ((2 * data.length - 1 : ℕ) : ℚ)

/-- Number of comparisons in `check_time_order` whose two timestamps both
parse (whether or not they reveal an issue). -/
def selfCounted (e : Segment) : ℕ :=
  match e.startTime, e.endTime with
  | some _, some _ => 1
  | _, _ => 0

/-- Pair variant of `selfCounted`. -/
def pairCounted (e f : Segment) : ℕ :=
  match e.endTime, f.startTime with
  | some _, some _ => 1
  | _, _ => 0

/-- Total number of time-order comparisons with parseable timestamps. -/
def parseableChecks : List Segment → ℕ
  | [] => 0
  | [e] => selfCounted e
  | e :: f :: rest => selfCounted e + pairCounted e f + parseableChecks (f :: rest)

/-- Modelled from the spec for claim C9 (the source has no such function):
the time-order ratio "computed only over the segment comparisons with
parseable timestamps", i.e. with unparseable comparisons excluded from the
denominator; the empty-denominator default follows the other checks (1.0). -/
def check_time_order_spec (data : List Segment) : ℚ :=
  if data = [] then 1
  else
    let d := parseableChecks data
    if d = 0 then 1 else 1 - (timeOrderIssues data : ℚ) / (d : ℚ)

/-- Loop counters of `check_suspicious_speed`:
`(valid_entries, total_checked)`. -/
def suspiciousSpeedCounts : List Segment → ℕ × ℕ
  | [] => (0, 0)
  | e :: rest =>
    let r := suspiciousSpeedCounts rest
    match e.activities with
    | some acts =>
      if acts ≠ [] then
        ((if calc_speed e.distance.toDist e.startTime e.endTime ≤ 4444/100 then 1 else 0)
          + r.1, 1 + r.2)
      else r
    | none => r

/-- `check_suspicious_speed`: among segments with a non-empty `activities`
list, the ratio whose reported-distance average speed is at most
`max_speed_m_s = 44.44`; 1.0 when none qualify. -/
def check_suspicious_speed (data : List Segment) : ℚ :=
  let r := suspiciousSpeedCounts data
  if 0 < r.2 then (r.1 : ℚ) / (r.2 : ℚ) else 1

/-- Counters of `check_inconsistent_probabilities` over one `activities`
list: `(valid_probs, total_probs)`. -/
def probCountsOfActs : List Activity → ℕ × ℕ
  | [] => (0, 0)
  | a :: rest =>
    let r := probCountsOfActs rest
    match a.probability with
    | some parsed =>
      ((match parsed with
        | some p => if 0 ≤ p ∧ p ≤ 1 then 1 else 0
        | none => 0) + r.1, 1 + r.2)
    | none => r

/-- Loop counters of `check_inconsistent_probabilities` over all segments
(every segment with an `activities` key contributes, even an empty list). -/
def probCounts : List Segment → ℕ × ℕ
  | [] => (0, 0)
  | e :: rest =>
    let r := probCounts rest
    match e.activities with
    | some acts =>
      let a := probCountsOfActs acts
      (a.1 + r.1, a.2 + r.2)
    | none => r

/-- `check_inconsistent_probabilities`: ratio of `probability` fields that
parse into `[0,1]`; 1.0 when no `probability` field exists. -/
def check_inconsistent_probabilities (data : List Segment) : ℚ :=
  let r := probCounts data
  if 0 < r.2 then (r.1 : ℚ) / (r.2 : ℚ) else 1

/-- Loop counters of `check_hierarchy_levels`:
`(valid_levels, total_checked)`. -/
def hierarchyCounts : List Segment → ℕ × ℕ
  | [] => (0, 0)
  | e :: rest =>
    let r := hierarchyCounts rest
    match e.placeVisit with
    | some pv =>
      match pv.locationConfidence with
      | some parsed =>
        ((match parsed with
          | some c => if 0 ≤ c ∧ c ≤ 1 then 1 else 0
          | none => 0) + r.1, 1 + r.2)
      | none => r
    | none => r

/-- `check_hierarchy_levels`: ratio of `placeVisit.location.locationConfidence`
fields that parse into `[0,1]`; 1.0 when none exist. -/
def check_hierarchy_levels (data : List Segment) : ℚ :=
  let r := hierarchyCounts data
  if 0 < r.2 then (r.1 : ℚ) / (r.2 : ℚ) else 1

/-- Counters of `check_waypoints` over one waypoint list:
`(valid_points, total_points)`; every waypoint adds two total checks, and
adds two valid checks only when both coordinates are present, parse, and
the derived latitude/longitude are in range. -/
def waypointCountsOfList : List Waypoint → ℕ × ℕ
  | [] => (0, 0)
  | w :: rest =>
    let r := waypointCountsOfList rest
    match w.latE7, w.lngE7 with
    | some latRaw, some lngRaw =>
      ((match latRaw, lngRaw with
        | some la, some ln =>
          if -90 ≤ la / 10000000 ∧ la / 10000000 ≤ 90 ∧
             -180 ≤ ln / 10000000 ∧ ln / 10000000 ≤ 180 then 2 else 0
        | _, _ => 0) + r.1,
       2 + r.2)
    | _, _ => (r.1, 2 + r.2)

/-- Loop counters of `check_waypoints` over all segments (only segments with
an `activitySegment` key contribute waypoints). -/
def waypointCounts : List Segment → ℕ × ℕ
  | [] => (0, 0)
  | e :: rest =>
    let r := waypointCounts rest
    match e.activitySegment with
    | some seg =>
      let a := waypointCountsOfList seg.waypoints
      (a.1 + r.1, a.2 + r.2)
    | none => r

/-- `check_waypoints`: ratio of in-range waypoint coordinate checks (two per
waypoint); 1.0 when no waypoints exist. -/
def check_waypoints (data : List Segment) : ℚ :=
  let r := waypointCounts data
  if 0 < r.2 then (r.1 : ℚ) / (r.2 : ℚ) else 1

/-- Gap durations (seconds) between consecutive segments whose adjoining
timestamps both parse, as collected by `check_for_regular_intervals`. -/
def intervalsOf : List Segment → List ℚ
  | a :: b :: rest =>
    (match a.endTime, b.startTime with
     | some e, some s => [s - e]
     | _, _ => []) ++ intervalsOf (b :: rest)
  | _ => []

/-- `check_for_regular_intervals`: ratio of distinct gap durations to total
gaps; 1.0 on empty data or when no gap is computable. -/
def check_for_regular_intervals (data : List Segment) : ℚ :=
  if data = [] then 1
  else
    let intervals := intervalsOf data
    if intervals = [] then 1
    else (intervals.dedup.length : ℚ) / (intervals.length : ℚ)

/-- Loop counters of `check_local_travel_vs_mode`:
`(valid_modes, total_checked)` over `activitySegment`s whose lowercased
`activityType` contains "walking" or "running". -/
def localTravelCounts : List Segment → ℕ × ℕ
  | [] => (0, 0)
  | e :: rest =>
    let r := localTravelCounts rest
    match e.activitySegment with
    | some seg =>
      let aty := strToLower (seg.activityType.getD "")
      if aty ≠ "" ∧ (strContains aty "walking" ∨ strContains aty "running") then
        let speed := calc_speed seg.distance.toDist seg.startTime seg.endTime
        ((if (strContains aty "walking" ∧ speed ≤ 7/5)
             ∨ (strContains aty "running" ∧ speed ≤ 7/2) then 1 else 0) + r.1,
         1 + r.2)
      else r
    | none => r

/-- `check_local_travel_vs_mode`: among walking/running segments, the ratio
whose speed respects `max_walk_speed = 1.4` / `max_run_speed = 3.5`;
1.0 when none qualify. -/
def check_local_travel_vs_mode (data : List Segment) : ℚ :=
  let r := localTravelCounts data
  if 0 < r.2 then (r.1 : ℚ) / (r.2 : ℚ) else 1

/-- Earliest parsed `startTime` over all segments (`None` when no
`startTime` parses), as accumulated by `check_time_span`. -/
def earliestStart : List Segment → Option ℚ
  | [] => none
  | e :: rest =>
    match e.startTime, earliestStart rest with
    | some s, some m => some (min s m)
    | some s, none => some s
    | none, m => m

/-- Latest parsed `endTime` over all segments. -/
def latestEnd : List Segment → Option ℚ
  | [] => none
  | e :: rest =>
    match e.endTime, latestEnd rest with
    | some s, some m => some (max s m)
    | some s, none => some s
    | none, m => m

/-- `check_time_span`: `(latest endTime - earliest startTime)` in days
(seconds divided by 86400); 0.0 on empty data or when either bound is
missing. -/
def check_time_span (data : List Segment) : ℚ :=
  if data = [] then 0
  else
    match earliestStart data, latestEnd data with
    | some e, some l => (l - e) / 86400
    | _, _ => 0

/-- The seven check values assembled by
`android_location_history_validator.validate`. -/
def validator_checks (data : List Segment) : List ℚ :=
  [check_time_order data,
   check_suspicious_speed data,
   check_inconsistent_probabilities data,
   check_hierarchy_levels data,
   check_waypoints data,
   check_for_regular_intervals data,
   check_local_travel_vs_mode data]

/-- `android_location_history_validator.validate`: sentinel -1 when the
check sum is below `7*0.1`, else the time span in days divided by 60 and
clamped above at 1.0. -/
def validate (data : List Segment) : ℚ :=
  let valid := (validator_checks data).sum
  if valid < 7 * (1/10) then -1
  else min (check_time_span data / 60) 1

/-- A segment whose `endTime` precedes its `startTime` by one day (both
timestamps parse; no other field is present). -/
def segBackwardsDay : Segment := ⟨some 86400, some 0, .absent, none, none, none⟩

/-- A segment whose `endTime` precedes its `startTime` by sixty days. -/
def segBackwards60 : Segment := ⟨some 5184000, some 0, .absent, none, none, none⟩

/-- A segment with both timestamps present and ordered backwards (10 → 0). -/
def segTenZero : Segment := ⟨some 10, some 0, .absent, none, none, none⟩

/-- A segment with no parseable timestamps. -/
def segNoTimes : Segment := ⟨none, none, .absent, none, none, none⟩

/-- Claim C4 as stated is false: on the single backwards segment
`segBackwardsDay` the gate passes (check sum 6 ≥ 0.7) but the time span is
-1 day, so `validate` returns -1/60, which is neither the sentinel -1 nor
in [0,1]. -/
theorem c4_counterexample :
    ¬ (validate [segBackwardsDay] = -1 ∨
       (0 ≤ validate [segBackwardsDay] ∧ validate [segBackwardsDay] ≤ 1)) := by
  have h : validate [segBackwardsDay] = -1/60 := by
    norm_num [validate, validator_checks, check_time_order, timeOrderIssues, selfIssue,
      check_suspicious_speed, suspiciousSpeedCounts,
      check_inconsistent_probabilities, probCounts,
      check_hierarchy_levels, hierarchyCounts,
      check_waypoints, waypointCounts,
      check_for_regular_intervals, intervalsOf,
      check_local_travel_vs_mode, localTravelCounts,
      check_time_span, earliestStart, latestEnd,
      segBackwardsDay]
  rw [h]
  norm_num

/-- Claim C4, amended: `validate` always returns either -1 or a value at
most 1, and whenever the computed time span is nonnegative (in particular
whenever the latest end does not precede the earliest start) the return is
-1 or lies in [0,1]; only a negative time span can produce a negative
non-sentinel value. -/
theorem c4_range :
    ∀ data : List Segment,
      (validate data = -1 ∨ validate data ≤ 1) ∧
      (0 ≤ check_time_span data →
        validate data = -1 ∨ (0 ≤ validate data ∧ validate data ≤ 1)) := by
  intro data
  simp only [validate]
  split_ifs with h
  · exact ⟨Or.inl rfl, fun _ => Or.inl rfl⟩
  · refine ⟨Or.inr (min_le_right _ _), fun hspan => Or.inr ⟨?_, min_le_right _ _⟩⟩
    exact le_min (div_nonneg hspan (by norm_num)) (by norm_num)

/-- Witness for the amended C4 at the empty segment list, whose time span
is 0 and whose validator score is 0. -/
theorem c4_range_witness :
    0 ≤ check_time_span [] ∧
    (validate [] = -1 ∨ (0 ≤ validate [] ∧ validate [] ≤ 1)) :=
  ⟨by norm_num [check_time_span], (c4_range []).2 (by norm_num [check_time_span])⟩

/-- Claim C5 as stated is false: on `segBackwards60` the check sum is 6
(not below 0.7), yet `validate` returns -1, because the clamped time-span
score `min(-60/60, 1)` itself equals the sentinel. -/
theorem c5_counterexample :
    validate [segBackwards60] = -1 ∧
    ¬ ((validator_checks [segBackwards60]).sum < 7/10) := by
  constructor <;>
    norm_num [validate, validator_checks, check_time_order, timeOrderIssues, selfIssue,
      check_suspicious_speed, suspiciousSpeedCounts,
      check_inconsistent_probabilities, probCounts,
      check_hierarchy_levels, hierarchyCounts,
      check_waypoints, waypointCounts,
      check_for_regular_intervals, intervalsOf,
      check_local_travel_vs_mode, localTravelCounts,
      check_time_span, earliestStart, latestEnd,
      min_def, segBackwards60]

/-- Claim C5, amended: `validate` returns -1 exactly when the sum of the
seven check ratios is below 0.7 or the time span equals -60 days (the one
degenerate case where `min(timeSpan/60, 1)` is itself -1); whenever the sum
is at least 0.7 the return value is `min(timeSpan/60, 1)`. -/
theorem c5_gate :
    ∀ data : List Segment,
      (validate data = -1 ↔
        (validator_checks data).sum < 7/10 ∨ check_time_span data = -60) ∧
      (validate data = -1 ∨ validate data = min (check_time_span data / 60) 1) := by
  intro data
  simp only [validate]
  split_ifs with h
  · exact ⟨⟨fun _ => Or.inl (by linarith), fun _ => rfl⟩, Or.inl rfl⟩
  · push_neg at h
    have h' : ¬ (validator_checks data).sum < 7/10 := by linarith
    refine ⟨⟨?_, ?_⟩, Or.inr rfl⟩
    · intro hm
      rcases min_cases (check_time_span data / 60) (1 : ℚ) with ⟨heq, _⟩ | ⟨heq, _⟩
      · right
        have hts : check_time_span data / 60 = -1 := heq.symm.trans hm
        linarith
      · exfalso
        have : (1 : ℚ) = -1 := heq.symm.trans hm
        norm_num at this
    · intro hcase
      rcases hcase with hv | hts
      · exact absurd hv h'
      · rw [hts]; norm_num [min_def]

/-- A segment's own comparison contributes an issue only if it was counted
as parseable. -/
lemma selfIssue_le_selfCounted (e : Segment) : selfIssue e ≤ selfCounted e := by
  unfold selfIssue selfCounted
  cases e.startTime <;> cases e.endTime <;> simp
  split <;> simp

/-- A pair comparison contributes an issue only if it was counted as
parseable. -/
lemma pairIssue_le_pairCounted (e f : Segment) : pairIssue e f ≤ pairCounted e f := by
  unfold pairIssue pairCounted
  cases e.endTime <;> cases f.startTime <;> simp
  split <;> simp

lemma selfCounted_le_one (e : Segment) : selfCounted e ≤ 1 := by
  unfold selfCounted
  cases e.startTime <;> cases e.endTime <;> simp

lemma pairCounted_le_one (e f : Segment) : pairCounted e f ≤ 1 := by
  unfold pairCounted
  cases e.endTime <;> cases f.startTime <;> simp

/-- Time-order issues only ever arise from comparisons whose timestamps
both parse. -/
lemma timeOrderIssues_le_parseableChecks :
    ∀ l : List Segment, timeOrderIssues l ≤ parseableChecks l := by
  intro l
  induction l with
  | nil => simp [timeOrderIssues, parseableChecks]
  | cons e rest ih =>
    cases rest with
    | nil => simpa [timeOrderIssues, parseableChecks] using selfIssue_le_selfCounted e
    | cons f rest2 =>
      simp only [timeOrderIssues, parseableChecks]
      have h1 := selfIssue_le_selfCounted e
      have h2 := pairIssue_le_pairCounted e f
      omega

/-- The parseable comparisons are at most the fixed denominator
`2*len - 1`. -/
lemma parseableChecks_le :
    ∀ l : List Segment, parseableChecks l ≤ 2 * l.length - 1 := by
  intro l
  induction l with
  | nil => simp [parseableChecks]
  | cons e rest ih =>
    cases rest with
    | nil => simpa [parseableChecks] using selfCounted_le_one e
    | cons f rest2 =>
      simp only [parseableChecks, List.length_cons]
      have h1 := selfCounted_le_one e
      have h2 := pairCounted_le_one e f
      have h3 : parseableChecks (f :: rest2) ≤ 2 * (f :: rest2).length - 1 := ih
      simp only [List.length_cons] at h3
      omega

/-- Claim C9 as stated is false: with one backwards segment followed by one
segment whose timestamps do not parse, the source ratio is 1 - 1/3 = 2/3
(fixed denominator 2*2-1 = 3), whereas a ratio computed only over the
parseable comparisons (one comparison, one issue) would be 0. -/
theorem c9_counterexample :
    check_time_order [segTenZero, segNoTimes] = 2/3 ∧
    check_time_order_spec [segTenZero, segNoTimes] = 0 ∧
    (2/3 : ℚ) ≠ 0 := by
  refine ⟨?_, ?_, by norm_num⟩ <;>
    · norm_num [check_time_order, check_time_order_spec, timeOrderIssues, parseableChecks,
        selfIssue, pairIssue, selfCounted, pairCounted, segTenZero, segNoTimes]
      simp

/-- Claim C9, amended: unparseable timestamps cause a comparison to be
skipped, so it can never contribute an issue (issues are bounded by the
parseable comparisons), but the denominator of `check_time_order` stays
fixed at `2*len - 1` regardless of parseability — skipped comparisons count
as passing rather than being excluded. -/
theorem c9_time_order :
    ∀ data : List Segment, data ≠ [] →
      check_time_order data =
        1 - (timeOrderIssues data : ℚ) / ((2 * data.length - 1 : ℕ) : ℚ) ∧
      timeOrderIssues data ≤ parseableChecks data ∧
      parseableChecks data ≤ 2 * data.length - 1 := by
  intro data h
  exact ⟨by simp [check_time_order, h], timeOrderIssues_le_parseableChecks data,
    parseableChecks_le data⟩

/-- Witness for the amended C9 at the two-segment counterexample input. -/
theorem c9_time_order_witness :
    check_time_order [segTenZero, segNoTimes] =
      1 - (timeOrderIssues [segTenZero, segNoTimes] : ℚ) /
        ((2 * ([segTenZero, segNoTimes] : List Segment).length - 1 : ℕ) : ℚ) ∧
    timeOrderIssues [segTenZero, segNoTimes] ≤ parseableChecks [segTenZero, segNoTimes] ∧
    parseableChecks [segTenZero, segNoTimes] ≤
      2 * ([segTenZero, segNoTimes] : List Segment).length - 1 :=
  c9_time_order [segTenZero, segNoTimes] (by simp)

/-- Boolean lexicographic comparison of character lists (code-point order),
used to sort canonical serializations deterministically. -/
def strLeBool : List Char → List Char → Bool
  | [], _ => true
  | _ :: _, [] => false
  | a :: as, b :: bs =>
    if a.toNat < b.toNat then true
    else if b.toNat < a.toNat then false
    else strLeBool as bs

/-- Sort a list of strings in code-point order (stable merge sort). -/
def sortStrings (l : List String) : List String :=
  l.mergeSort (fun a b => strLeBool a.toList b.toList)

/-- A hierarchical JSON/YAML value, as handled by the uniqueness engine
(strings, numbers, arrays, objects; other scalars play no role in the
claims and are representable as strings). -/
inductive JVal where
  | str (s : String)
  | num (q : ℚ)
  | arr (xs : List JVal)
  | obj (fields : List (String × JVal))

mutual

/-- Canonical serialization modelling `json.dumps(entry, sort_keys=True)`
equivalence: object member order is canonicalized, array order is kept.
Strings are length-prefixed so that the encoding distinguishes distinct
values. -/
def serOrdered : JVal → String
  | .str s => "s" ++ toString s.length ++ ":" ++ s
  | .num q => "n" ++ toString q.num ++ "/" ++ toString q.den
  | .arr xs => "a(" ++ String.intercalate "," (serOrderedList xs) ++ ")"
  | .obj fs => "o(" ++ String.intercalate "," (sortStrings (serOrderedFields fs)) ++ ")"

/-- Serialize each array element (order preserved). -/
def serOrderedList : List JVal → List String
  | [] => []
  | x :: xs => serOrdered x :: serOrderedList xs

/-- Serialize each object field as `k<len>:<key>=<value>`. -/
def serOrderedFields : List (String × JVal) → List String
  | [] => []
  | (k, v) :: fs =>
    ("k" ++ toString k.length ++ ":" ++ k ++ "=" ++ serOrdered v) :: serOrderedFields fs

end

mutual

/-- Fully order-insensitive canonical serialization modelling the
equivalence kernel of `DeepDiff(a, b, ignore_order=True)`: both object
member order and array element order are canonicalized away. -/
def serCanon : JVal → String
  | .str s => "s" ++ toString s.length ++ ":" ++ s
  | .num q => "n" ++ toString q.num ++ "/" ++ toString q.den
  | .arr xs => "a(" ++ String.intercalate "," (sortStrings (serCanonList xs)) ++ ")"
  | .obj fs => "o(" ++ String.intercalate "," (sortStrings (serCanonFields fs)) ++ ")"

/-- Canonically serialize each array element. -/
def serCanonList : List JVal → List String
  | [] => []
  | x :: xs => serCanon x :: serCanonList xs

/-- Canonically serialize each object field. -/
def serCanonFields : List (String × JVal) → List String
  | [] => []
  | (k, v) :: fs =>
    ("k" ++ toString k.length ++ ":" ++ k ++ "=" ++ serCanon v) :: serCanonFields fs

end

/-- `not DeepDiff(a, b, ignore_order=True)`: the two hierarchical values
are structurally equal up to member/array order. -/
def deepDiffSame (a b : JVal) : Bool :=
  serCanon a == serCanon b

/-- The inner loop of the unique-entry selection: a current record is
unique iff it matches no record of the combined historical corpus. -/
def isUniqueAgainst (combined : List JVal) (curr : JVal) : Bool :=
  combined.all (fun c => !(deepDiffSame curr c))

/-- `unique_curr_json_data` / `unique_curr_yaml_data`: the current records
that match nothing in the historical corpus (order preserved). -/
def uniqueEntries (curr combined : List JVal) : List JVal :=
  curr.filter (fun x => isUniqueAgainst combined x)

/-- `len({json.dumps(entry, sort_keys=True) for entry in xs})`: the number
of distinct canonical serializations. -/
def distinctCount (xs : List JVal) : ℕ :=
  ((xs.map serOrdered).dedup).length

/-- One row of the browsing-history CSV (`DateTime` parsed to seconds,
`NavigatedToUrl`, and any remaining columns, which participate in row
equality for `drop_duplicates` and the anti-join). -/
structure CsvRow where
  dateTime : ℚ
  navigatedToUrl : String
  otherCols : List String
deriving DecidableEq

/-- `unique_curr_csv_data`: the current CSV rows left-anti-joined against
the combined historical rows on all columns; when the historical frame is
empty the merge is skipped and the current rows are used as-is. -/
def unique_curr_csv_data (curr combined : List CsvRow) : List CsvRow :=
  if combined = [] then curr
  else curr.filter (fun r => decide (r ∉ combined))

/-- `csv_uniqueness_score`: deduplicated-unique over deduplicated-total,
`None` when the current frame has no rows. -/
def csv_uniqueness_score (curr combined : List CsvRow) : Option ℚ :=
  let total := curr.dedup.length
  if 0 < total then
    some (((unique_curr_csv_data curr combined).dedup.length : ℚ) / (total : ℚ))
  else none

/-- `json_uniqueness_score`: distinct unique entries over distinct current
entries, `None` when there are no current entries. -/
def json_uniqueness_score (curr combined : List JVal) : Option ℚ :=
  let total := distinctCount curr
  if 0 < total then
    some ((distinctCount (uniqueEntries curr combined) : ℚ) / (total : ℚ))
  else none

/-- `yaml_uniqueness_score`: same computation as the JSON score, applied to
the bookmark records. -/
def yaml_uniqueness_score (curr combined : List JVal) : Option ℚ :=
  let total := distinctCount curr
  if 0 < total then
    some ((distinctCount (uniqueEntries curr combined) : ℚ) / (total : ℚ))
  else none

/-- The `final_uniqueness_score` selection chain of
`process_files_for_uniqueness`: an entry-count-weighted average only when
all three modality scores are defined, otherwise the first defined score in
the fixed order csv → json → yaml (None when none is defined). -/
def final_uniqueness (c j y : Option ℚ) (tc tj ty : ℕ) : Option ℚ :=
  match c, j, y with
  | some cs, some js, some ys =>
      some ((cs * tc + js * tj + ys * ty) / ((tc : ℚ) + (tj : ℚ) + (ty : ℚ)))
  | some cs, _, _ => some cs
  | none, some js, _ => some js
  | none, none, ys => ys

/-- The final uniqueness score of `process_files_for_uniqueness` as a
function of the already-loaded current and historical record collections
(retrieval, decryption and parsing of those collections are external). -/
def final_uniqueness_score (curr_csv combined_csv : List CsvRow)
    (curr_json combined_json curr_yaml combined_yaml : List JVal) : Option ℚ :=
  final_uniqueness
    (csv_uniqueness_score curr_csv combined_csv)
    (json_uniqueness_score curr_json combined_json)
    (yaml_uniqueness_score curr_yaml combined_yaml)
    curr_csv.dedup.length (distinctCount curr_json) (distinctCount curr_yaml)

/-- The Redis hash written for the current file id (lines 309-313 of
`proof_of_uniqueness.py`): fields `browser_history_csv_data`,
`location_history_json_data` and `bookmarks_yaml_data` are set, all other
fields are left untouched. -/
def cache_current_file_data (store : String → Option String)
    (csv_payload json_payload yaml_payload : String) : String → Option String :=
  fun field =>
    if field = "browser_history_csv_data" then some csv_payload
    else if field = "location_history_json_data" then some json_payload
    else if field = "bookmarks_yaml_data" then some yaml_payload
    else store field

/-- The read path for the historical bookmark corpus (line 157):
`redis_client.hget(file_id, "bookmarks_html_data")`. -/
def read_historical_bookmarks (store : String → Option String) : Option String :=
  store "bookmarks_html_data"

/-- Claim C10: the submission write path sets the bookmark payload under
field `bookmarks_yaml_data` while the historical read path consults field
`bookmarks_html_data`, so caching a submission never changes what the
bookmark read path sees; in particular, starting from an empty store, the
historical bookmark corpus read back after a write is still `none`. -/
theorem c10_bookmark_fields :
    (∀ (store : String → Option String) (c j y : String),
      read_historical_bookmarks (cache_current_file_data store c j y) =
        read_historical_bookmarks store) ∧
    (∀ c j y : String,
      read_historical_bookmarks (cache_current_file_data (fun _ => none) c j y) = none) := by
  constructor
  · intro store c j y
    simp only [read_historical_bookmarks, cache_current_file_data]
    rw [if_neg (by decide), if_neg (by decide), if_neg (by decide)]
  · intro c j y
    simp only [read_historical_bookmarks, cache_current_file_data]
    rw [if_neg (by decide), if_neg (by decide), if_neg (by decide)]

/-- Against an empty historical corpus every current record is unique, so
the filter keeps the whole list. -/
lemma uniqueEntries_empty_corpus (curr : List JVal) : uniqueEntries curr [] = curr := by
  simp [uniqueEntries, isUniqueAgainst]

/-- Claim C6: against an empty historical corpus, every non-empty current
collection scores uniqueness exactly 1, for each of the three modality
kinds (tabular CSV rows, hierarchical JSON records, hierarchical YAML
records). -/
theorem c6_empty_corpus_uniqueness :
    ∀ (ccsv : List CsvRow) (cjson cyaml : List JVal),
      (ccsv ≠ [] → csv_uniqueness_score ccsv [] = some 1) ∧
      (cjson ≠ [] → json_uniqueness_score cjson [] = some 1) ∧
      (cyaml ≠ [] → yaml_uniqueness_score cyaml [] = some 1) := by
  intro ccsv cjson cyaml
  have hj : ∀ l : List JVal, l ≠ [] →
      (let total := distinctCount l
       if 0 < total then
         some ((distinctCount (uniqueEntries l []) : ℚ) / (total : ℚ))
       else none) = some 1 := by
    intro l hl
    have he : uniqueEntries l [] = l := uniqueEntries_empty_corpus l
    have htot : 0 < distinctCount l := by
      unfold distinctCount
      rw [List.length_pos]
      simp [List.dedup_eq_nil, hl]
    simp only [he, htot, if_true, if_pos htot]
    rw [div_self (by exact_mod_cast Nat.pos_iff_ne_zero.mp htot)]
  refine ⟨?_, hj cjson, hj cyaml⟩
  intro h
  have htot : 0 < ccsv.dedup.length := by
    rw [List.length_pos]
    simp [List.dedup_eq_nil, h]
  have hu : unique_curr_csv_data ccsv [] = ccsv := by simp [unique_curr_csv_data]
  simp only [csv_uniqueness_score, hu, if_pos htot]
  rw [div_self (by exact_mod_cast Nat.pos_iff_ne_zero.mp htot)]

/-- A concrete CSV row used in uniqueness witnesses. -/
def rowB : CsvRow := ⟨5, "https://b", []⟩

/-- Witness for C6 at concrete one-element collections. -/
theorem c6_empty_corpus_uniqueness_witness :
    csv_uniqueness_score [rowB] [] = some 1 ∧
    json_uniqueness_score [JVal.num 2] [] = some 1 ∧
    yaml_uniqueness_score [JVal.str "bm"] [] = some 1 :=
  ⟨(c6_empty_corpus_uniqueness [rowB] [JVal.num 2] [JVal.str "bm"]).1 (by simp),
   (c6_empty_corpus_uniqueness [rowB] [JVal.num 2] [JVal.str "bm"]).2.1 (by simp),
   (c6_empty_corpus_uniqueness [rowB] [JVal.num 2] [JVal.str "bm"]).2.2 (by simp)⟩

/-- A concrete CSV row used in the C2 counterexample. -/
def rowC : CsvRow := ⟨7, "https://c", []⟩

/-- Claim C2 as stated is false: with the current CSV fully duplicated in
history (defined ratio 0, one entry), a fresh JSON record (defined ratio 1,
one entry) and no YAML records (undefined ratio), the entry-count-weighted
average over the two defined modalities would be 1/2, but the code takes
the first defined score in the csv → json → yaml chain and returns 0. -/
theorem c2_counterexample :
    final_uniqueness_score [rowC] [rowC] [JVal.num 3] [] [] [] = some 0 ∧
    ((0 : ℚ) * 1 + 1 * 1) / ((1 : ℚ) + 1) = 1/2 ∧
    some (0 : ℚ) ≠ some ((1 : ℚ)/2) := by
  refine ⟨?_, by norm_num, by norm_num⟩
  have hcsv : csv_uniqueness_score [rowC] [rowC] = some 0 := by
    norm_num [csv_uniqueness_score, unique_curr_csv_data]
  have hjson : json_uniqueness_score [JVal.num 3] [] = some 1 := by
    norm_num [json_uniqueness_score, uniqueEntries_empty_corpus, distinctCount]
  have hyaml : yaml_uniqueness_score ([] : List JVal) [] = none := by
    norm_num [yaml_uniqueness_score, distinctCount]
  simp [final_uniqueness_score, final_uniqueness, hcsv, hjson, hyaml]

/-- Claim C2, amended: the entry-count-weighted average is used exactly
when all three modalities have a defined ratio; otherwise the first defined
ratio in the fixed priority csv → json → yaml is returned on its own
(later defined ratios are ignored), and `None` results when no ratio is
defined. -/
theorem c2_final_selection :
    ∀ (a b : List CsvRow) (c d e f : List JVal),
      (∀ x y z : ℚ,
        csv_uniqueness_score a b = some x →
        json_uniqueness_score c d = some y →
        yaml_uniqueness_score e f = some z →
        final_uniqueness_score a b c d e f =
          some ((x * a.dedup.length + y * distinctCount c + z * distinctCount e) /
            ((a.dedup.length : ℚ) + (distinctCount c : ℚ) + (distinctCount e : ℚ)))) ∧
      (csv_uniqueness_score a b ≠ none →
        (json_uniqueness_score c d = none ∨ yaml_uniqueness_score e f = none) →
        final_uniqueness_score a b c d e f = csv_uniqueness_score a b) ∧
      (csv_uniqueness_score a b = none → json_uniqueness_score c d ≠ none →
        final_uniqueness_score a b c d e f = json_uniqueness_score c d) ∧
      (csv_uniqueness_score a b = none → json_uniqueness_score c d = none →
        final_uniqueness_score a b c d e f = yaml_uniqueness_score e f) := by
  intro a b c d e f
  refine ⟨?_, ?_, ?_, ?_⟩
  · intro x y z hx hy hz
    simp [final_uniqueness_score, final_uniqueness, hx, hy, hz]
  · intro h1 h2
    rcases Option.ne_none_iff_exists'.mp h1 with ⟨x, hx⟩
    rcases h2 with h2 | h2
    · cases hy : yaml_uniqueness_score e f <;>
        simp [final_uniqueness_score, final_uniqueness, hx, h2, hy]
    · cases hjj : json_uniqueness_score c d <;>
        simp [final_uniqueness_score, final_uniqueness, hx, h2, hjj]
  · intro h1 h2
    rcases Option.ne_none_iff_exists'.mp h2 with ⟨y, hy⟩
    cases hyy : yaml_uniqueness_score e f <;>
      simp [final_uniqueness_score, final_uniqueness, h1, hy, hyy]
  · intro h1 h2
    cases hyy : yaml_uniqueness_score e f <;>
      simp [final_uniqueness_score, final_uniqueness, h1, h2, hyy]

/-- A concrete CSV row used in the C2 witness. -/
def rowD : CsvRow := ⟨9, "https://d", []⟩

/-- Witness for the amended C2 with all three modalities defined: the
weighted average of three ratio-1 modalities with one entry each is 1. -/
theorem c2_final_selection_witness :
    final_uniqueness_score [rowD] [] [JVal.num 4] [] [JVal.num 5] [] = some 1 := by
  have hcsv : csv_uniqueness_score [rowD] [] = some 1 := by
    norm_num [csv_uniqueness_score, unique_curr_csv_data]
  have hjson : json_uniqueness_score [JVal.num 4] [] = some 1 := by
    norm_num [json_uniqueness_score, uniqueEntries_empty_corpus, distinctCount]
  have hyaml : yaml_uniqueness_score [JVal.num 5] [] = some 1 := by
    norm_num [yaml_uniqueness_score, uniqueEntries_empty_corpus, distinctCount]
  have h := (c2_final_selection [rowD] [] [JVal.num 4] [] [JVal.num 5] []).1 1 1 1
    hcsv hjson hyaml
  rw [h]
  norm_num [distinctCount]

/-- Sort CSV rows by `DateTime` descending (pandas
`sort_values('DateTime', ascending=False)`). -/
def sortRowsDesc (rows : List CsvRow) : List CsvRow :=
  rows.mergeSort (fun a b => decide (b.dateTime ≤ a.dateTime))

/-- The per-row loop of `process_unique_csv_data` after sorting: each entry
gets the row's url, an empty action list, and `timeSpent` equal to the gap
to the next (older) timestamp in milliseconds; the last entry keeps the
initial 0. -/
def rowsToBrowsingData : List CsvRow → List BrowsingEntry
  | [] => []
  | [r] => [⟨some r.navigatedToUrl, some 0, some []⟩]
  | r :: r2 :: rest =>
      ⟨some r.navigatedToUrl, some ((r.dateTime - r2.dateTime) * 1000), some []⟩
        :: rowsToBrowsingData (r2 :: rest)

/-- `process_unique_csv_data`: sort descending by timestamp, then derive
per-visit dwell times. -/
def process_unique_csv_data (rows : List CsvRow) : List BrowsingEntry :=
  rowsToBrowsingData (sortRowsDesc rows)

/-- The `(quality_score, authenticity_score)` pair of
`process_and_evaluate_data` in `proof_of_quality_n_authenticity.py` (the
overall score and label it also computes are not consulted by the
aggregator). -/
def process_and_evaluate_data (rows : List CsvRow) : ℚ × ℚ :=
  let browsing_data := process_unique_csv_data rows
  (evaluate_quality browsing_data, evaluate_authenticity browsing_data)

/-- An element of the aggregator's `unique_yaml_data` list; the code
consults only the truthiness and length of the first element, so the
element type of the inner list is irrelevant. -/
abbrev YamlElem := List Unit

/-- `total_csv_entries`: 0 when the frame is `None` or empty, else the
row count after `drop_duplicates()`. -/
def total_csv_entries (unique_csv_data : Option (List CsvRow)) : ℕ :=
  match unique_csv_data with
  | none => 0
  | some rows => if rows = [] then 0 else rows.dedup.length

/-- `semanticSegments` of the first JSON document: the empty list when
`unique_json_data` is empty or its first element is falsy (an empty dict,
modelled `none`); a first element without the key yields the `.get`
default `[]`, represented by `some []`. -/
def semantic_segments_data (unique_json_data : List (Option (List Segment))) : List Segment :=
  match unique_json_data with
  | [] => []
  | first :: _ =>
    match first with
    | none => []
    | some segs => segs

/-- `total_json_entries`: the number of semantic segments. -/
def total_json_entries (unique_json_data : List (Option (List Segment))) : ℕ :=
  (semantic_segments_data unique_json_data).length

/-- `total_yaml_entries`: 0 when the list is empty or its first element is
falsy, else the first element's length. -/
def total_yaml_entries (unique_yaml_data : List YamlElem) : ℕ :=
  match unique_yaml_data with
  | [] => 0
  | first :: _ => if first = [] then 0 else first.length

/-- The location-history `(quality, authenticity)` pair: `validate` on the
semantic segments plus the fixed authenticity 1.0 when segments exist,
otherwise the initial `(0.0, 0.0)`. -/
def location_scores (unique_json_data : List (Option (List Segment))) : ℚ × ℚ :=
  if 0 < total_json_entries unique_json_data then
    (validate (semantic_segments_data unique_json_data), 1)
  else (0, 0)

/-- The YAML (bookmark) quality step function of the aggregator
(`>10 → 1.0`, `4 < n ≤ 9 → 1.0*0.5`, `1 < n ≤ 4 → 1.0*0.10`,
else `0.0`). -/
def yaml_quality_score (n : ℕ) : ℚ :=
  if 10 < n then 1
  else if 4 < n ∧ n ≤ 9 then 1 * (1/2)
  else if 1 < n ∧ n ≤ 4 then 1 * (1/10)
  else 0

/-- The YAML (bookmark) authenticity score: 1.0 iff the quality score is
positive. -/
def yaml_authenticity_score (n : ℕ) : ℚ :=
  if 0 < yaml_quality_score n then 1 else 0

/-- `process_files_for_quality_n_authenticity_scores`: per-modality scores
then the final selection — an entry-count-weighted average only when both
the CSV and JSON modalities have entries, otherwise the first modality with
entries in the order csv → json → yaml, else `(0.0, 0.0)`. -/
def process_files_for_quality_n_authenticity_scores
    (unique_csv_data : Option (List CsvRow))
    (unique_json_data : List (Option (List Segment)))
    (unique_yaml_data : List YamlElem) : ℚ × ℚ :=
  let tc := total_csv_entries unique_csv_data
  let tj := total_json_entries unique_json_data
  let ty := total_yaml_entries unique_yaml_data
  let loc := location_scores unique_json_data
  let bro := if 0 < tc then process_and_evaluate_data (unique_csv_data.getD []) else (0, 0)
  let yq := yaml_quality_score ty
  let ya := yaml_authenticity_score ty
  if 0 < tc ∧ 0 < tj then
    ((bro.1 * tc + loc.1 * tj + yq * ty) / ((tc : ℚ) + (tj : ℚ) + (ty : ℚ)),
     (bro.2 * tc + (loc.2 * tj + ya * ty)) / ((tc : ℚ) + (tj : ℚ) + (ty : ℚ)))
  else if 0 < tc then bro
  else if 0 < tj then loc
  else if 0 < ty then (yq, ya)
  else (0, 0)

/-- Claim C8: the bookmark quality score is the step function 1.0 above 10
entries, 0.5 for 5-9, 0.1 for 2-4, and 0.0 otherwise (in particular at
exactly 10 and at 0 or 1 entries), and the bookmark authenticity score is
1.0 exactly when the quality score is positive (and is always 1.0 or
0.0). -/
theorem c8_yaml_step_function :
    ∀ n : ℕ,
      yaml_quality_score n =
        (if 10 < n then 1
         else if 5 ≤ n ∧ n ≤ 9 then 1/2
         else if 2 ≤ n ∧ n ≤ 4 then 1/10
         else 0) ∧
      (yaml_authenticity_score n = 1 ↔ 0 < yaml_quality_score n) ∧
      (yaml_authenticity_score n = 1 ∨ yaml_authenticity_score n = 0) := by
  intro n
  refine ⟨?_, ?_, ?_⟩
  · unfold yaml_quality_score
    split_ifs <;> first | omega | norm_num
  · constructor
    · intro h1
      by_contra hq
      simp only [yaml_authenticity_score, if_neg hq] at h1
      norm_num at h1
    · intro hq
      simp only [yaml_authenticity_score, if_pos hq]
  · simp only [yaml_authenticity_score]
    split_ifs <;> simp

/-- Claim C3 as stated is false: with no browsing entries, one location
segment and three bookmark entries, the claim predicts the entry-weighted
average of the location and bookmark scores (quality (0*1 + 0.1*3)/4 =
3/40), but the code falls through to the location-only branch and returns
quality 0 (with authenticity 1). -/
theorem c3_counterexample :
    process_files_for_quality_n_authenticity_scores none [some [segNoTimes]] [[(), (), ()]]
      = (0, 1) ∧
    ((location_scores [some [segNoTimes]]).1 * 1
      + yaml_quality_score 3 * 3) / ((1 : ℚ) + 3) = 3/40 ∧
    (0 : ℚ) ≠ 3/40 := by
  have hval : validate [segNoTimes] = 0 := by
    norm_num [validate, validator_checks, check_time_order, timeOrderIssues, selfIssue,
      check_suspicious_speed, suspiciousSpeedCounts,
      check_inconsistent_probabilities, probCounts,
      check_hierarchy_levels, hierarchyCounts,
      check_waypoints, waypointCounts,
      check_for_regular_intervals, intervalsOf,
      check_local_travel_vs_mode, localTravelCounts,
      check_time_span, earliestStart, latestEnd,
      min_def, segNoTimes]
  have hloc : location_scores [some [segNoTimes]] = (0, 1) := by
    norm_num [location_scores, total_json_entries, semantic_segments_data, hval]
  refine ⟨?_, ?_, by norm_num⟩
  · norm_num [process_files_for_quality_n_authenticity_scores, total_csv_entries,
      total_json_entries, semantic_segments_data, total_yaml_entries, hloc]
  · norm_num [hloc, yaml_quality_score]

/-- Claim C3, amended: the entry-count-weighted combination (over all three
modalities, zero-count modalities contributing zero weight) is used exactly
when both the browsing and the location modality have entries; otherwise
the score pair of the first modality with entries in the fixed order
browsing → location → bookmark is used directly (so bookmark entries are
ignored whenever browsing or location entries exist but not both), and
`(0, 0)` results when no modality has entries. -/
theorem c3_aggregation :
    ∀ (u : Option (List CsvRow)) (j : List (Option (List Segment))) (y : List YamlElem),
      (0 < total_csv_entries u → 0 < total_json_entries j →
        process_files_for_quality_n_authenticity_scores u j y =
          (((process_and_evaluate_data (u.getD [])).1 * total_csv_entries u
              + (location_scores j).1 * total_json_entries j
              + yaml_quality_score (total_yaml_entries y) * total_yaml_entries y)
            / ((total_csv_entries u : ℚ) + (total_json_entries j : ℚ)
                + (total_yaml_entries y : ℚ)),
           ((process_and_evaluate_data (u.getD [])).2 * total_csv_entries u
              + ((location_scores j).2 * total_json_entries j
                 + yaml_authenticity_score (total_yaml_entries y) * total_yaml_entries y))
            / ((total_csv_entries u : ℚ) + (total_json_entries j : ℚ)
                + (total_yaml_entries y : ℚ)))) ∧
      (0 < total_csv_entries u → total_json_entries j = 0 →
        process_files_for_quality_n_authenticity_scores u j y =
          process_and_evaluate_data (u.getD [])) ∧
      (total_csv_entries u = 0 → 0 < total_json_entries j →
        process_files_for_quality_n_authenticity_scores u j y = location_scores j) ∧
      (total_csv_entries u = 0 → total_json_entries j = 0 → 0 < total_yaml_entries y →
        process_files_for_quality_n_authenticity_scores u j y =
          (yaml_quality_score (total_yaml_entries y),
           yaml_authenticity_score (total_yaml_entries y))) ∧
      (total_csv_entries u = 0 → total_json_entries j = 0 → total_yaml_entries y = 0 →
        process_files_for_quality_n_authenticity_scores u j y = (0, 0)) := by
  intro u j y
  refine ⟨?_, ?_, ?_, ?_, ?_⟩
  · intro h1 h2
    simp only [process_files_for_quality_n_authenticity_scores]
    rw [if_pos ⟨h1, h2⟩, if_pos h1]
  · intro h1 h2
    simp only [process_files_for_quality_n_authenticity_scores]
    rw [if_neg (by simp [h2]), if_pos h1, if_pos h1]
  · intro h1 h2
    simp only [process_files_for_quality_n_authenticity_scores]
    rw [if_neg (by simp [h1]), if_neg (by simp [h1]), if_pos h2]
  · intro h1 h2 h3
    simp only [process_files_for_quality_n_authenticity_scores]
    rw [if_neg (by simp [h1]), if_neg (by simp [h1]), if_neg (by simp [h2]), if_pos h3]
  · intro h1 h2 h3
    simp only [process_files_for_quality_n_authenticity_scores]
    rw [if_neg (by simp [h1]), if_neg (by simp [h1]), if_neg (by simp [h2]),
      if_neg (by simp [h3])]

/-- A concrete CSV row used in the C3 witness. -/
def rowA : CsvRow := ⟨0, "https://a", []⟩

/-- The validator yields 0 on the single segment with no parseable data. -/
lemma validate_segNoTimes : validate [segNoTimes] = 0 := by
  norm_num [validate, validator_checks, check_time_order, timeOrderIssues, selfIssue,
    check_suspicious_speed, suspiciousSpeedCounts,
    check_inconsistent_probabilities, probCounts,
    check_hierarchy_levels, hierarchyCounts,
    check_waypoints, waypointCounts,
    check_for_regular_intervals, intervalsOf,
    check_local_travel_vs_mode, localTravelCounts,
    check_time_span, earliestStart, latestEnd,
    min_def, segNoTimes]

/-- Witness for the amended C3 in the weighted-average branch: one browsing
row (quality 1/10, authenticity 1/5), one empty location segment (quality
0, authenticity 1), no bookmarks; the weighted averages are 1/20 and
3/5. -/
theorem c3_aggregation_witness :
    process_files_for_quality_n_authenticity_scores (some [rowA]) [some [segNoTimes]] []
      = (1/20, 3/5) := by
  have htc : total_csv_entries (some [rowA]) = 1 := by
    simp [total_csv_entries]
  have htj : total_json_entries [some [segNoTimes]] = 1 := by
    simp [total_json_entries, semantic_segments_data]
  have hty : total_yaml_entries ([] : List YamlElem) = 0 := by
    simp [total_yaml_entries]
  have hurl : is_valid_url "https://a" = true := by decide
  have hbro : process_and_evaluate_data [rowA] = (1/10, 1/5) := by
    norm_num [process_and_evaluate_data, process_unique_csv_data, sortRowsDesc,
      List.mergeSort, rowsToBrowsingData, evaluate_quality, evaluate_authenticity,
      entryQualityCounts, hurl, rowA]
  have hloc : location_scores [some [segNoTimes]] = (0, 1) := by
    norm_num [location_scores, total_json_entries, semantic_segments_data,
      validate_segNoTimes]
  have h := (c3_aggregation (some [rowA]) [some [segNoTimes]] []).1
    (by rw [htc]; norm_num) (by rw [htj]; norm_num)
  rw [h]
  simp only [Option.getD_some]
  rw [htc, htj, hty, hbro, hloc]
  norm_num [yaml_quality_score, yaml_authenticity_score]
